import Mathlib

/-!
Verification of the `useSnowfall` composable (src/useSnowfall.js).

The composable is a closure holding mutable state (`flakeIntervalId`,
`cleanupIntervalId`, `styleElement`, `containerElement`, `activeFlakes`)
and exposing `startSnowflakes` / `stopSnowflakes`.  We embed it shallowly:

* the closure's mutable variables become the fields of `SnowState`;
* each helper (`getContainer`, `addStyles`, `removeStyles`,
  `createSnowflake`, `removeSnowflake`, `cleanupSnowflakes`,
  `removeAllSnowflakes`, `startSnowflakes`, `stopSnowflakes`) becomes a
  Lean function from state to state (returning its JS return value where
  it has one);
* `Math.random()` draws become explicit rational parameters in [0,1)
  (a `Draws` record per `createSnowflake` call);
* JS numbers become `ℚ` (all the arithmetic the claims mention is exact);
* DOM elements created by the instance (the snowflakes) are numbered by a
  fresh-id counter; the list `domFlakes` holds the ids currently attached
  to the container (`parentNode` non-null), `activeFlakes` mirrors the JS
  `Set` (insertion ordered, no duplicate ids by the membership guard);
* `document.querySelector` is an opaque function in the configuration;
  `console.warn` is modelled by the counter `warnCount`;
* the resolved container's inline `style.position` and its
  `data-vue-snowfall-position` attribute are the fields `containerInline`
  and `containerAttr`; `getComputedStyle(el).position` is modelled as the
  inline value when non-empty, else a fixed stylesheet-provided value
  (`Config.stylesheetPosition`);
* `setInterval` hands out fresh timer ids from `nextTimerId`;
  `clearInterval` just nulls the stored handle.
-/

namespace VueSnowfall

/-- A DOM element that can serve as container: `document.body` or some
other element identified by a number. -/
inductive ContainerRef : Type
  | body : ContainerRef
  | el : ℕ → ContainerRef
deriving DecidableEq, Repr

/-- The `container` option: a selector string, a concrete `HTMLElement`
reference, or anything else (which falls through to `document.body`). -/
inductive ContainerOption : Type
  | selector : String → ContainerOption
  | element : ContainerRef → ContainerOption
  | other : ContainerOption

/-- The destructured configuration of `useSnowfall` (immutable after
construction), together with the ambient DOM facts it consults:
`query` models `document.querySelector` and `stylesheetPosition` the
non-inline part of `getComputedStyle(el).position` for the non-body
container. -/
structure Config : Type where
  containerOpt : ContainerOption
  interval : ℚ
  minSpeed : ℚ
  maxSpeed : ℚ
  minSize : ℚ
  maxSize : ℚ
  color : String
  zIndex : ℤ
  maxFlakes : Option ℚ
  chaos : ℚ
  query : String → Option ContainerRef
  stylesheetPosition : String

/-- The closure's mutable state. -/
@[ext]
structure SnowState : Type where
  flakeIntervalId : Option ℕ
  cleanupIntervalId : Option ℕ
  styleInjected : Bool
  containerElement : Option ContainerRef
  activeFlakes : List ℕ
  domFlakes : List ℕ
  nextFlakeId : ℕ
  nextTimerId : ℕ
  warnCount : ℕ
  containerInline : String
  containerAttr : Option String
deriving DecidableEq, Repr

/-- The state of a fresh `useSnowfall()` instance; `inline` is the
pre-existing inline `position` of the (non-body) container element. -/
def initState (inline : String) : SnowState :=
  { flakeIntervalId := none
    cleanupIntervalId := none
    styleInjected := false
    containerElement := none
    activeFlakes := []
    domFlakes := []
    nextFlakeId := 0
    nextTimerId := 0
    warnCount := 0
    containerInline := inline
    containerAttr := none }

/-- `const chaosMultiplier = Math.max(0, Math.min(100, chaos)) / 50`. -/
def chaosMultiplier (chaos : ℚ) : ℚ :=
  max 0 (min 100 chaos) / 50

/-- `const random = (min, max) => Math.random() * (max - min) + min`,
with the `Math.random()` result `r ∈ [0,1)` made explicit. -/
def random (lo hi r : ℚ) : ℚ :=
  r * (hi - lo) + lo

/-- `const randomInt = (min, max) => Math.floor(random(min, max + 1))`. -/
def randomInt (lo hi r : ℚ) : ℤ :=
  ⌊random lo (hi + 1) r⌋

/-- `Math.round` on (finite) JS numbers: round half toward +∞. -/
def jsRound (q : ℚ) : ℤ :=
  ⌊q + 1 / 2⌋

/-- JS `Set.prototype.add` / appending a new child: append unless present. -/
def listAdd (l : List ℕ) (x : ℕ) : List ℕ :=
  if x ∈ l then l else l ++ [x]

/-- JS `Set.prototype.delete` / detaching an element. -/
def listDelete (l : List ℕ) (x : ℕ) : List ℕ :=
  l.filter (fun y => y ≠ x)

/-- `getComputedStyle(containerEl).position` for the non-body container:
the inline value when present, otherwise the stylesheet value. -/
def computedPosition (cfg : Config) (s : SnowState) : String :=
  if s.containerInline = "" then cfg.stylesheetPosition else s.containerInline

/-- `getContainer`: memoized container resolution (src lines 44-59). -/
def getContainer (cfg : Config) (s : SnowState) : ContainerRef × SnowState :=
  match s.containerElement with
  | some c => (c, s)
  | none =>
    match cfg.containerOpt with
    | ContainerOption.selector sel =>
      match cfg.query sel with
      | some c => (c, { s with containerElement := some c })
      | none =>
        (ContainerRef.body,
          { s with containerElement := some ContainerRef.body
                   warnCount := s.warnCount + 1 })
    | ContainerOption.element e => (e, { s with containerElement := some e })
    | ContainerOption.other =>
      (ContainerRef.body, { s with containerElement := some ContainerRef.body })

/-- The container `getContainer` returns, as a function of the cache
field only (proof helper, not part of the source). -/
def resolveFst (cfg : Config) : Option ContainerRef → ContainerRef
  | some c => c
  | none =>
    match cfg.containerOpt with
    | ContainerOption.selector sel =>
      match cfg.query sel with
      | some c => c
      | none => ContainerRef.body
    | ContainerOption.element e => e
    | ContainerOption.other => ContainerRef.body

/-- `addStyles`: inject the style element once (src lines 64-96); we track
only its presence. -/
def addStyles (s : SnowState) : SnowState :=
  if s.styleInjected then s else { s with styleInjected := true }

/-- `removeStyles` (src lines 101-106). -/
def removeStyles (s : SnowState) : SnowState :=
  if s.styleInjected then { s with styleInjected := false } else s

/-- The five `Math.random()` results consumed by one `createSnowflake`
call, in source order; each lies in `[0,1)`. -/
structure Draws : Type where
  rTime : ℚ
  rPos : ℚ
  rSize : ℚ
  rDevStart : ℚ
  rDevEnd : ℚ
deriving DecidableEq, Repr

/-- The data of one created snowflake element. -/
structure Flake : Type where
  id : ℕ
  fallingTime : ℚ
  flakePos : ℤ
  flakeSize : ℤ
  xDeviation : ℚ
  xDeviationEnd : ℚ
deriving DecidableEq, Repr

/-- The first guard of `createSnowflake`:
`maxFlakes !== null && activeFlakes.size >= maxFlakes`. -/
def maxReached (cfg : Config) (s : SnowState) : Bool :=
  match cfg.maxFlakes with
  | some n => decide ((s.activeFlakes.length : ℚ) ≥ n)
  | none => false

/-- `createSnowflake` (src lines 122-160): the two guards, the sampled
parameters, element creation, attachment and registration. -/
def createSnowflake (cfg : Config) (s : SnowState) (d : Draws) :
    Option Flake × SnowState :=
  if maxReached cfg s then
    (none, s)
  else
    let p := getContainer cfg s
    let s1 := p.2
    let fallingTime := random cfg.minSpeed cfg.maxSpeed d.rTime
    let flakePos := randomInt 1 99 d.rPos
    let flakeSize := jsRound (random cfg.minSize cfg.maxSize d.rSize)
    if flakeSize ≤ 0 then (none, s1)
    else
      let maxDeviation := 100 * chaosMultiplier cfg.chaos
      let xDeviation := random (-maxDeviation) maxDeviation d.rDevStart
      let xDeviationEnd :=
        random (-maxDeviation * (1 / 2)) (maxDeviation * (1 / 2)) d.rDevEnd
      let flake : Flake :=
        { id := s1.nextFlakeId
          fallingTime := fallingTime
          flakePos := flakePos
          flakeSize := flakeSize
          xDeviation := xDeviation
          xDeviationEnd := xDeviationEnd }
      (some flake,
        { s1 with
            nextFlakeId := s1.nextFlakeId + 1
            domFlakes := listAdd s1.domFlakes s1.nextFlakeId
            activeFlakes := listAdd s1.activeFlakes s1.nextFlakeId })

/-- `removeSnowflake` (src lines 165-170): only acts when the flake has a
parent node, i.e. is attached. -/
def removeSnowflake (f : ℕ) (s : SnowState) : SnowState :=
  if f ∈ s.domFlakes then
    { s with
        domFlakes := listDelete s.domFlakes f
        activeFlakes := listDelete s.activeFlakes f }
  else s

/-- Ambient geometry consulted by `cleanupSnowflakes`:
`window.innerHeight`, `offsetHeight` of a container, and the
`getBoundingClientRect().top` of each flake. -/
structure Geometry : Type where
  innerHeight : ℚ
  offsetHeight : ContainerRef → ℚ
  flakeTop : ℕ → ℚ

/-- `activeFlakes.forEach(removeSnowflake)` / `flakesToRemove.forEach(...)`
as a left fold over the snapshot of the iterated collection. -/
def sweepFold (l : List ℕ) (s : SnowState) : SnowState :=
  l.foldl (fun st f => removeSnowflake f st) s

/-- `cleanupSnowflakes` (src lines 175-190): the periodic backstop sweep. -/
def cleanupSnowflakes (cfg : Config) (g : Geometry) (s : SnowState) : SnowState :=
  if s.activeFlakes.length = 0 then s
  else
    let p := getContainer cfg s
    let containerHeight :=
      if p.1 = ContainerRef.body then g.innerHeight else g.offsetHeight p.1
    let flakesToRemove :=
      p.2.activeFlakes.filter (fun f => g.flakeTop f > containerHeight + 50)
    sweepFold flakesToRemove p.2

/-- `removeAllSnowflakes` (src lines 195-198). -/
def removeAllSnowflakes (s : SnowState) : SnowState :=
  let s1 := sweepFold s.activeFlakes s
  { s1 with activeFlakes := [] }

/-- The two `clearInterval` guards of `stopSnowflakes`
(src lines 232-239): null out whichever timer handles are set. -/
def clearTimers (s : SnowState) : SnowState :=
  let s1 :=
    if s.flakeIntervalId.isSome then { s with flakeIntervalId := none } else s
  if s1.cleanupIntervalId.isSome then { s1 with cleanupIntervalId := none }
  else s1

/-- The position-restoration tail of `stopSnowflakes` (src lines 244-250):
if the cached container is a non-body element carrying the
`data-vue-snowfall-position` attribute, write the recorded value back to
the inline style (the `"static"` sentinel becomes the empty string) and
drop the attribute. -/
def restorePosition (s : SnowState) : SnowState :=
  match s.containerElement with
  | some c =>
    if c ≠ ContainerRef.body then
      match s.containerAttr with
      | some originalPosition =>
        { s with
            containerInline :=
              if originalPosition = "static" then "" else originalPosition
            containerAttr := none }
      | none => s
    else s
  | none => s

/-- `stopSnowflakes` (src lines 231-251). -/
def stopSnowflakes (s : SnowState) : SnowState :=
  restorePosition (removeStyles (removeAllSnowflakes (clearTimers s)))

/-- The position-override step of `startSnowflakes` (src lines 211-216):
on a resolved non-body container whose computed position is `static`,
set the inline position to `relative` and record the prior inline value
on the `data-vue-snowfall-position` attribute (empty inline value is
recorded as the sentinel `"static"`, from `originalPosition || 'static'`).
The argument is the `(containerEl, state)` pair `getContainer` returned. -/
def overridePosition (cfg : Config) (p : ContainerRef × SnowState) : SnowState :=
  if p.1 ≠ ContainerRef.body ∧ computedPosition cfg p.2 = "static" then
    { p.2 with
        containerInline := "relative"
        containerAttr :=
          some (if p.2.containerInline = "" then "static"
                else p.2.containerInline) }
  else p.2

/-- The two `setInterval` calls of `startSnowflakes` (src lines 220-225):
store fresh timer handles for the spawn and sweep timers. -/
def scheduleTimers (s : SnowState) : SnowState :=
  { s with
      flakeIntervalId := some s.nextTimerId
      cleanupIntervalId := some (s.nextTimerId + 1)
      nextTimerId := s.nextTimerId + 2 }

/-- The body of `startSnowflakes` after the initial already-running check
(src lines 208-225), on an input state known not to be running. -/
def startCore (cfg : Config) (s : SnowState) (d : Draws) : SnowState :=
  scheduleTimers
    (createSnowflake cfg
      (overridePosition cfg (getContainer cfg (addStyles (removeAllSnowflakes s))))
      d).2

/-- `startSnowflakes` (src lines 203-226); `d` is the draw record consumed
by the one synchronous `createSnowflake()` call. -/
def startSnowflakes (cfg : Config) (s : SnowState) (d : Draws) : SnowState :=
  startCore cfg (if s.flakeIntervalId.isSome then stopSnowflakes s else s) d

/-- A sequence of spawn ticks: fold `createSnowflake` over a list of draw
records. -/
def spawnTicks (cfg : Config) (s : SnowState) (ds : List Draws) : SnowState :=
  ds.foldl (fun st d => (createSnowflake cfg st d).2) s

/-! ### Concrete instances for witnesses and counterexamples -/

/-- All five `Math.random()` draws equal to `0.5`. -/
def halfDraws : Draws :=
  { rTime := 1 / 2, rPos := 1 / 2, rSize := 1 / 2, rDevStart := 1 / 2
    rDevEnd := 1 / 2 }

/-- The documented default configuration (no container option given, so
it falls through to `document.body`), over an empty document. -/
def witnessCfg : Config :=
  { containerOpt := ContainerOption.other
    interval := 500
    minSpeed := 20
    maxSpeed := 30
    minSize := 10
    maxSize := 30
    color := "#fff"
    zIndex := 999
    maxFlakes := none
    chaos := 50
    query := fun _ => none
    stylesheetPosition := "static" }

/-- The default configuration with `maxFlakes = 0`. -/
def zeroMaxCfg : Config :=
  { witnessCfg with maxFlakes := some 0 }

/-- The default configuration with the fractional `maxFlakes = 0.5`. -/
def halfMaxCfg : Config :=
  { witnessCfg with maxFlakes := some (1 / 2) }

/-- The default configuration pointed at a concrete non-body container
element. -/
def elemCfg : Config :=
  { witnessCfg with containerOpt := ContainerOption.element (ContainerRef.el 7) }

/-- The default configuration with `maxFlakes = 2`. -/
def twoMaxCfg : Config :=
  { witnessCfg with maxFlakes := some 2 }

/-- A selector that matches nothing, and a degenerate size range whose
rounded sample is always 0. -/
def degenerateCfg : Config :=
  { witnessCfg with
      containerOpt := ContainerOption.selector "#missing"
      minSize := 0
      maxSize := 0 }

/-! ### Frame lemmas: which fields each operation leaves untouched -/

lemma removeSnowflake_frame (f : ℕ) (s : SnowState) :
    (removeSnowflake f s).flakeIntervalId = s.flakeIntervalId ∧
    (removeSnowflake f s).cleanupIntervalId = s.cleanupIntervalId ∧
    (removeSnowflake f s).styleInjected = s.styleInjected ∧
    (removeSnowflake f s).containerElement = s.containerElement ∧
    (removeSnowflake f s).nextFlakeId = s.nextFlakeId ∧
    (removeSnowflake f s).nextTimerId = s.nextTimerId ∧
    (removeSnowflake f s).warnCount = s.warnCount ∧
    (removeSnowflake f s).containerInline = s.containerInline ∧
    (removeSnowflake f s).containerAttr = s.containerAttr := by
  unfold removeSnowflake
  split <;> exact ⟨rfl, rfl, rfl, rfl, rfl, rfl, rfl, rfl, rfl⟩

lemma sweepFold_frame (l : List ℕ) (s : SnowState) :
    (sweepFold l s).flakeIntervalId = s.flakeIntervalId ∧
    (sweepFold l s).cleanupIntervalId = s.cleanupIntervalId ∧
    (sweepFold l s).styleInjected = s.styleInjected ∧
    (sweepFold l s).containerElement = s.containerElement ∧
    (sweepFold l s).nextFlakeId = s.nextFlakeId ∧
    (sweepFold l s).nextTimerId = s.nextTimerId ∧
    (sweepFold l s).warnCount = s.warnCount ∧
    (sweepFold l s).containerInline = s.containerInline ∧
    (sweepFold l s).containerAttr = s.containerAttr := by
  induction l generalizing s with
  | nil => exact ⟨rfl, rfl, rfl, rfl, rfl, rfl, rfl, rfl, rfl⟩
  | cons a t ih =>
    obtain ⟨a1, a2, a3, a4, a5, a6, a7, a8, a9⟩ := ih (removeSnowflake a s)
    obtain ⟨b1, b2, b3, b4, b5, b6, b7, b8, b9⟩ := removeSnowflake_frame a s
    exact ⟨a1.trans b1, a2.trans b2, a3.trans b3, a4.trans b4, a5.trans b5,
      a6.trans b6, a7.trans b7, a8.trans b8, a9.trans b9⟩

lemma removeAllSnowflakes_spec (s : SnowState) :
    (removeAllSnowflakes s).activeFlakes = [] ∧
    (removeAllSnowflakes s).flakeIntervalId = s.flakeIntervalId ∧
    (removeAllSnowflakes s).cleanupIntervalId = s.cleanupIntervalId ∧
    (removeAllSnowflakes s).styleInjected = s.styleInjected ∧
    (removeAllSnowflakes s).containerElement = s.containerElement ∧
    (removeAllSnowflakes s).nextFlakeId = s.nextFlakeId ∧
    (removeAllSnowflakes s).nextTimerId = s.nextTimerId ∧
    (removeAllSnowflakes s).warnCount = s.warnCount ∧
    (removeAllSnowflakes s).containerInline = s.containerInline ∧
    (removeAllSnowflakes s).containerAttr = s.containerAttr := by
  obtain ⟨a1, a2, a3, a4, a5, a6, a7, a8, a9⟩ := sweepFold_frame s.activeFlakes s
  exact ⟨rfl, a1, a2, a3, a4, a5, a6, a7, a8, a9⟩

lemma removeStyles_spec (s : SnowState) :
    (removeStyles s).styleInjected = false ∧
    (removeStyles s).flakeIntervalId = s.flakeIntervalId ∧
    (removeStyles s).cleanupIntervalId = s.cleanupIntervalId ∧
    (removeStyles s).containerElement = s.containerElement ∧
    (removeStyles s).activeFlakes = s.activeFlakes ∧
    (removeStyles s).domFlakes = s.domFlakes ∧
    (removeStyles s).nextFlakeId = s.nextFlakeId ∧
    (removeStyles s).nextTimerId = s.nextTimerId ∧
    (removeStyles s).warnCount = s.warnCount ∧
    (removeStyles s).containerInline = s.containerInline ∧
    (removeStyles s).containerAttr = s.containerAttr := by
  unfold removeStyles
  split
  · exact ⟨rfl, rfl, rfl, rfl, rfl, rfl, rfl, rfl, rfl, rfl, rfl⟩
  · next h =>
    simp only [Bool.not_eq_true] at h
    exact ⟨h, rfl, rfl, rfl, rfl, rfl, rfl, rfl, rfl, rfl, rfl⟩

lemma addStyles_spec (s : SnowState) :
    (addStyles s).styleInjected = true ∧
    (addStyles s).flakeIntervalId = s.flakeIntervalId ∧
    (addStyles s).cleanupIntervalId = s.cleanupIntervalId ∧
    (addStyles s).containerElement = s.containerElement ∧
    (addStyles s).activeFlakes = s.activeFlakes ∧
    (addStyles s).domFlakes = s.domFlakes ∧
    (addStyles s).nextFlakeId = s.nextFlakeId ∧
    (addStyles s).nextTimerId = s.nextTimerId ∧
    (addStyles s).warnCount = s.warnCount ∧
    (addStyles s).containerInline = s.containerInline ∧
    (addStyles s).containerAttr = s.containerAttr := by
  unfold addStyles
  split
  · next h => exact ⟨h, rfl, rfl, rfl, rfl, rfl, rfl, rfl, rfl, rfl, rfl⟩
  · exact ⟨rfl, rfl, rfl, rfl, rfl, rfl, rfl, rfl, rfl, rfl, rfl⟩

lemma getContainer_frame (cfg : Config) (s : SnowState) :
    (getContainer cfg s).2.flakeIntervalId = s.flakeIntervalId ∧
    (getContainer cfg s).2.cleanupIntervalId = s.cleanupIntervalId ∧
    (getContainer cfg s).2.styleInjected = s.styleInjected ∧
    (getContainer cfg s).2.activeFlakes = s.activeFlakes ∧
    (getContainer cfg s).2.domFlakes = s.domFlakes ∧
    (getContainer cfg s).2.nextFlakeId = s.nextFlakeId ∧
    (getContainer cfg s).2.nextTimerId = s.nextTimerId ∧
    (getContainer cfg s).2.containerInline = s.containerInline ∧
    (getContainer cfg s).2.containerAttr = s.containerAttr := by
  unfold getContainer
  repeat' split
  all_goals exact ⟨rfl, rfl, rfl, rfl, rfl, rfl, rfl, rfl, rfl⟩

/-- A cache hit returns the cached container and leaves the state alone. -/
lemma getContainer_cached (cfg : Config) (s : SnowState) (c : ContainerRef)
    (h : s.containerElement = some c) : getContainer cfg s = (c, s) := by
  unfold getContainer
  rw [h]

lemma getContainer_fst (cfg : Config) (s : SnowState) :
    (getContainer cfg s).1 = resolveFst cfg s.containerElement := by
  unfold getContainer resolveFst
  cases h : s.containerElement with
  | some c => simp
  | none =>
    cases ho : cfg.containerOpt with
    | selector sel => cases hq : cfg.query sel <;> simp [hq]
    | element e => simp
    | other => simp

/-- After any `getContainer` call the cache holds exactly the returned
container. -/
lemma getContainer_cache (cfg : Config) (s : SnowState) :
    (getContainer cfg s).2.containerElement = some (getContainer cfg s).1 := by
  unfold getContainer
  cases h : s.containerElement with
  | some c => simpa using h
  | none =>
    cases ho : cfg.containerOpt with
    | selector sel => cases hq : cfg.query sel <;> simp [hq]
    | element e => simp
    | other => simp

/-- The returned container depends only on the cache field (and the
configuration). -/
lemma getContainer_congr (cfg : Config) (s t : SnowState)
    (h : s.containerElement = t.containerElement) :
    (getContainer cfg s).1 = (getContainer cfg t).1 := by
  rw [getContainer_fst, getContainer_fst, h]

lemma clearTimers_spec (s : SnowState) :
    (clearTimers s).flakeIntervalId = none ∧
    (clearTimers s).cleanupIntervalId = none ∧
    (clearTimers s).styleInjected = s.styleInjected ∧
    (clearTimers s).containerElement = s.containerElement ∧
    (clearTimers s).activeFlakes = s.activeFlakes ∧
    (clearTimers s).domFlakes = s.domFlakes ∧
    (clearTimers s).nextFlakeId = s.nextFlakeId ∧
    (clearTimers s).nextTimerId = s.nextTimerId ∧
    (clearTimers s).warnCount = s.warnCount ∧
    (clearTimers s).containerInline = s.containerInline ∧
    (clearTimers s).containerAttr = s.containerAttr := by
  unfold clearTimers
  by_cases h1 : s.flakeIntervalId.isSome <;>
    by_cases h2 : s.cleanupIntervalId.isSome <;>
      simp_all [Option.not_isSome_iff_eq_none]

lemma restorePosition_frame (s : SnowState) :
    (restorePosition s).flakeIntervalId = s.flakeIntervalId ∧
    (restorePosition s).cleanupIntervalId = s.cleanupIntervalId ∧
    (restorePosition s).styleInjected = s.styleInjected ∧
    (restorePosition s).containerElement = s.containerElement ∧
    (restorePosition s).activeFlakes = s.activeFlakes ∧
    (restorePosition s).domFlakes = s.domFlakes ∧
    (restorePosition s).nextFlakeId = s.nextFlakeId ∧
    (restorePosition s).nextTimerId = s.nextTimerId ∧
    (restorePosition s).warnCount = s.warnCount := by
  unfold restorePosition
  cases h : s.containerElement with
  | none => simp [h]
  | some c =>
    by_cases hb : c = ContainerRef.body
    · simp [hb, h]
    · cases ha : s.containerAttr <;> simp [hb, ha, h]

/-- With no recorded attribute, position restoration is a no-op. -/
lemma restorePosition_of_attr_none (s : SnowState)
    (h : s.containerAttr = none) : restorePosition s = s := by
  unfold restorePosition
  cases hc : s.containerElement with
  | none => rfl
  | some c =>
    by_cases hb : c = ContainerRef.body
    · simp [hb]
    · simp [hb, h]

/-- On a cached non-body container the restoration clears the recorded
attribute, and writes back the recorded value (sentinel `"static"`
becoming `""`) when one was present. -/
lemma restorePosition_restores (s : SnowState) (c : ContainerRef)
    (hc : s.containerElement = some c) (hb : c ≠ ContainerRef.body) :
    (restorePosition s).containerAttr = none ∧
    (∀ orig, s.containerAttr = some orig →
      (restorePosition s).containerInline =
        (if orig = "static" then "" else orig)) ∧
    (s.containerAttr = none →
      (restorePosition s).containerInline = s.containerInline) := by
  unfold restorePosition
  rw [hc]
  cases ha : s.containerAttr with
  | none => simp [hb, ha]
  | some orig => simp [hb, ha]

lemma stopSnowflakes_spec (s : SnowState) :
    (stopSnowflakes s).flakeIntervalId = none ∧
    (stopSnowflakes s).cleanupIntervalId = none ∧
    (stopSnowflakes s).activeFlakes = [] ∧
    (stopSnowflakes s).styleInjected = false ∧
    (stopSnowflakes s).containerElement = s.containerElement ∧
    (stopSnowflakes s).nextFlakeId = s.nextFlakeId ∧
    (stopSnowflakes s).nextTimerId = s.nextTimerId ∧
    (stopSnowflakes s).warnCount = s.warnCount := by
  obtain ⟨c1, c2, c3, c4, c5, c6, c7, c8, c9, c10, c11⟩ := clearTimers_spec s
  obtain ⟨r1, r2, r3, r4, r5, r6, r7, r8, r9, r10⟩ :=
    removeAllSnowflakes_spec (clearTimers s)
  obtain ⟨t1, t2, t3, t4, t5, t6, t7, t8, t9, t10, t11⟩ :=
    removeStyles_spec (removeAllSnowflakes (clearTimers s))
  obtain ⟨p1, p2, p3, p4, p5, p6, p7, p8, p9⟩ :=
    restorePosition_frame (removeStyles (removeAllSnowflakes (clearTimers s)))
  unfold stopSnowflakes
  refine ⟨?_, ?_, ?_, ?_, ?_, ?_, ?_, ?_⟩
  · rw [p1, t2, r2, c1]
  · rw [p2, t3, r3, c2]
  · rw [p5, t5, r1]
  · rw [p3, t1]
  · rw [p4, t4, r5, c4]
  · rw [p7, t7, r6, c7]
  · rw [p8, t8, r7, c8]
  · rw [p9, t9, r8, c9]

lemma removeAllSnowflakes_of_empty (s : SnowState)
    (h : s.activeFlakes = []) : removeAllSnowflakes s = s := by
  unfold removeAllSnowflakes sweepFold
  rw [h]
  cases s
  simp_all

lemma removeStyles_of_absent (s : SnowState)
    (h : s.styleInjected = false) : removeStyles s = s := by
  unfold removeStyles
  rw [h]
  simp

lemma clearTimers_of_none (s : SnowState) (h1 : s.flakeIntervalId = none)
    (h2 : s.cleanupIntervalId = none) : clearTimers s = s := by
  unfold clearTimers
  cases s
  simp_all

/-- On an already-stopped state (both timers null, no tracked flakes, no
style, no pending position record on a non-body cached container),
`stopSnowflakes` is the identity. -/
lemma stopSnowflakes_fixed (s : SnowState)
    (h1 : s.flakeIntervalId = none) (h2 : s.cleanupIntervalId = none)
    (h3 : s.activeFlakes = []) (h4 : s.styleInjected = false)
    (h5 : ∀ c, s.containerElement = some c → c ≠ ContainerRef.body →
      s.containerAttr = none) :
    stopSnowflakes s = s := by
  unfold stopSnowflakes
  rw [clearTimers_of_none s h1 h2, removeAllSnowflakes_of_empty s h3,
    removeStyles_of_absent s h4]
  cases hc : s.containerElement with
  | none => unfold restorePosition; rw [hc]
  | some c =>
    by_cases hb : c = ContainerRef.body
    · unfold restorePosition; rw [hc]; simp [hb]
    · exact restorePosition_of_attr_none s (h5 c hc hb)

/-- After a stop, no position record remains on a cached non-body
container. -/
lemma stopSnowflakes_attr (s : SnowState) (c : ContainerRef)
    (hc : s.containerElement = some c) (hb : c ≠ ContainerRef.body) :
    (stopSnowflakes s).containerAttr = none := by
  obtain ⟨_, _, _, c4, _, _, _, _, _, _, _⟩ := clearTimers_spec s
  obtain ⟨_, _, _, _, r5, _, _, _, _, _⟩ :=
    removeAllSnowflakes_spec (clearTimers s)
  obtain ⟨_, _, _, t4, _, _, _, _, _, _, _⟩ :=
    removeStyles_spec (removeAllSnowflakes (clearTimers s))
  unfold stopSnowflakes
  have h4c :
      (removeStyles (removeAllSnowflakes (clearTimers s))).containerElement =
        some c := by rw [t4, r5, c4, hc]
  exact (restorePosition_restores _ c h4c hb).1

lemma stopSnowflakes_idem (s : SnowState) :
    stopSnowflakes (stopSnowflakes s) = stopSnowflakes s := by
  obtain ⟨h1, h2, h3, h4, h5, _, _, _⟩ := stopSnowflakes_spec s
  refine stopSnowflakes_fixed _ h1 h2 h3 h4 ?_
  intro c hc hb
  rw [h5] at hc
  exact stopSnowflakes_attr s c hc hb

lemma createSnowflake_frame (cfg : Config) (s : SnowState) (d : Draws) :
    (createSnowflake cfg s d).2.flakeIntervalId = s.flakeIntervalId ∧
    (createSnowflake cfg s d).2.cleanupIntervalId = s.cleanupIntervalId ∧
    (createSnowflake cfg s d).2.styleInjected = s.styleInjected ∧
    (createSnowflake cfg s d).2.nextTimerId = s.nextTimerId ∧
    (createSnowflake cfg s d).2.containerInline = s.containerInline ∧
    (createSnowflake cfg s d).2.containerAttr = s.containerAttr := by
  obtain ⟨g1, g2, g3, g4, g5, g6, g7, g8, g9⟩ := getContainer_frame cfg s
  unfold createSnowflake
  split
  · exact ⟨rfl, rfl, rfl, rfl, rfl, rfl⟩
  · simp only
    split
    · exact ⟨g1, g2, g3, g7, g8, g9⟩
    · exact ⟨g1, g2, g3, g7, g8, g9⟩

lemma listAdd_length (l : List ℕ) (x : ℕ) :
    (listAdd l x).length ≤ l.length + 1 := by
  unfold listAdd
  split
  · omega
  · simp

/-- The max-flakes guard short-circuits `createSnowflake`. -/
lemma createSnowflake_of_maxReached (cfg : Config) (s : SnowState) (d : Draws)
    (h : maxReached cfg s = true) : createSnowflake cfg s d = (none, s) := by
  unfold createSnowflake
  rw [h]
  simp

/-- `createSnowflake` either leaves the tracked set alone or adds the one
fresh element. -/
lemma createSnowflake_activeFlakes (cfg : Config) (s : SnowState) (d : Draws) :
    (createSnowflake cfg s d).2.activeFlakes = s.activeFlakes ∨
    (createSnowflake cfg s d).2.activeFlakes =
      listAdd s.activeFlakes s.nextFlakeId := by
  obtain ⟨_, _, _, g4, _, g6, _, _, _⟩ := getContainer_frame cfg s
  unfold createSnowflake
  split
  · exact Or.inl rfl
  · simp only
    split
    · exact Or.inl g4
    · right
      rw [g4, g6]

/-- One spawn tick keeps the tracked count below a configured natural
maximum. -/
lemma createSnowflake_length_le (cfg : Config) (s : SnowState) (d : Draws)
    (n : ℕ) (hm : cfg.maxFlakes = some (n : ℚ))
    (h : s.activeFlakes.length ≤ n) :
    (createSnowflake cfg s d).2.activeFlakes.length ≤ n := by
  by_cases hmax : maxReached cfg s = true
  · rw [createSnowflake_of_maxReached cfg s d hmax]
    exact h
  · have hlt : s.activeFlakes.length < n := by
      unfold maxReached at hmax
      rw [hm] at hmax
      simp only [decide_eq_true_eq, ge_iff_le, not_le] at hmax
      exact_mod_cast hmax
    rcases createSnowflake_activeFlakes cfg s d with hc | hc
    · rw [hc]; exact h
    · rw [hc]
      calc (listAdd s.activeFlakes s.nextFlakeId).length
          ≤ s.activeFlakes.length + 1 := listAdd_length _ _
        _ ≤ n := by omega

lemma overridePosition_frame (cfg : Config) (p : ContainerRef × SnowState) :
    (overridePosition cfg p).flakeIntervalId = p.2.flakeIntervalId ∧
    (overridePosition cfg p).cleanupIntervalId = p.2.cleanupIntervalId ∧
    (overridePosition cfg p).styleInjected = p.2.styleInjected ∧
    (overridePosition cfg p).containerElement = p.2.containerElement ∧
    (overridePosition cfg p).activeFlakes = p.2.activeFlakes ∧
    (overridePosition cfg p).domFlakes = p.2.domFlakes ∧
    (overridePosition cfg p).nextFlakeId = p.2.nextFlakeId ∧
    (overridePosition cfg p).nextTimerId = p.2.nextTimerId ∧
    (overridePosition cfg p).warnCount = p.2.warnCount := by
  unfold overridePosition
  split <;> exact ⟨rfl, rfl, rfl, rfl, rfl, rfl, rfl, rfl, rfl⟩

/-- End-state facts about the body of `start`: style injected, both
timers armed, and at most the one synchronously spawned flake tracked. -/
lemma startCore_spec (cfg : Config) (s : SnowState) (d : Draws) :
    (startCore cfg s d).styleInjected = true ∧
    (startCore cfg s d).flakeIntervalId.isSome = true ∧
    (startCore cfg s d).cleanupIntervalId.isSome = true ∧
    (startCore cfg s d).activeFlakes.length ≤ 1 := by
  obtain ⟨r1, _, _, r4, _, _, _, _, _, _⟩ :=
    removeAllSnowflakes_spec s
  obtain ⟨a1, _, _, _, a5, _, _, _, _, _, _⟩ :=
    addStyles_spec (removeAllSnowflakes s)
  obtain ⟨_, _, g3, g4, _, _, _, _, _⟩ :=
    getContainer_frame cfg (addStyles (removeAllSnowflakes s))
  obtain ⟨_, _, o3, _, o5, _, _, _, _⟩ :=
    overridePosition_frame cfg
      (getContainer cfg (addStyles (removeAllSnowflakes s)))
  obtain ⟨_, _, c3, _, _, _⟩ :=
    createSnowflake_frame cfg
      (overridePosition cfg
        (getContainer cfg (addStyles (removeAllSnowflakes s)))) d
  refine ⟨?_, rfl, rfl, ?_⟩
  · show (createSnowflake cfg _ d).2.styleInjected = true
    rw [c3, o3, g3, a1]
  · show (createSnowflake cfg _ d).2.activeFlakes.length ≤ 1
    rcases createSnowflake_activeFlakes cfg
        (overridePosition cfg
          (getContainer cfg (addStyles (removeAllSnowflakes s)))) d with hc | hc
    · rw [hc, o5, g4, a5, r1]
      simp
    · rw [hc]
      calc (listAdd _ _).length ≤ _ + 1 := listAdd_length _ _
        _ ≤ 1 := by rw [o5, g4, a5, r1]; simp

/-! ### Claim theorems -/

/-- C2: `stopSnowflakes` is total (a Lean function, so it never throws)
and idempotent: from any state — including one no `startSnowflakes` ever
touched — it leaves an empty tracked set, both timer handles null and the
injected style absent, and calling it any further number of times changes
nothing. -/
theorem c2_stop_idempotent_total (s : SnowState) :
    (stopSnowflakes s).activeFlakes = [] ∧
    (stopSnowflakes s).flakeIntervalId = none ∧
    (stopSnowflakes s).cleanupIntervalId = none ∧
    (stopSnowflakes s).styleInjected = false ∧
    (∀ n : ℕ, stopSnowflakes^[n + 1] s = stopSnowflakes s) := by
  obtain ⟨h1, h2, h3, h4, _, _, _, _⟩ := stopSnowflakes_spec s
  refine ⟨h3, h1, h2, h4, ?_⟩
  intro n
  induction n with
  | zero => rfl
  | succ m ih =>
    rw [Function.iterate_succ_apply', ih, stopSnowflakes_idem]

/-- C3: starting while the spawn timer is armed produces exactly the same
end state as stopping and then starting, and that end state has the style
injected, both timers armed, and the tracked set cleared down to at most
the one synchronously spawned flake. -/
theorem c3_restart_equiv (cfg : Config) (s : SnowState) (d : Draws)
    (h : s.flakeIntervalId.isSome = true) :
    startSnowflakes cfg s d = startSnowflakes cfg (stopSnowflakes s) d ∧
    (startSnowflakes cfg s d).styleInjected = true ∧
    (startSnowflakes cfg s d).flakeIntervalId.isSome = true ∧
    (startSnowflakes cfg s d).cleanupIntervalId.isSome = true ∧
    (startSnowflakes cfg s d).activeFlakes.length ≤ 1 := by
  obtain ⟨h1, _, _, _, _, _, _, _⟩ := stopSnowflakes_spec s
  have heq : startSnowflakes cfg s d = startSnowflakes cfg (stopSnowflakes s) d := by
    unfold startSnowflakes
    rw [h, h1]
    simp
  refine ⟨heq, ?_, ?_, ?_, ?_⟩ <;>
    · unfold startSnowflakes
      rw [h]
      simp only [if_true]
      obtain ⟨k1, k2, k3, k4⟩ := startCore_spec cfg (stopSnowflakes s) d
      first
        | exact k1
        | exact k2
        | exact k3
        | exact k4

/-- C3 witness: a concrete running state restarted with concrete draws. -/
theorem c3_restart_equiv_witness :
    ({ initState "" with flakeIntervalId := some 0 } :
        SnowState).flakeIntervalId.isSome = true ∧
    (startSnowflakes witnessCfg { initState "" with flakeIntervalId := some 0 }
        halfDraws =
      startSnowflakes witnessCfg
        (stopSnowflakes { initState "" with flakeIntervalId := some 0 })
        halfDraws ∧
    (startSnowflakes witnessCfg { initState "" with flakeIntervalId := some 0 }
        halfDraws).styleInjected = true ∧
    (startSnowflakes witnessCfg { initState "" with flakeIntervalId := some 0 }
        halfDraws).flakeIntervalId.isSome = true ∧
    (startSnowflakes witnessCfg { initState "" with flakeIntervalId := some 0 }
        halfDraws).cleanupIntervalId.isSome = true ∧
    (startSnowflakes witnessCfg { initState "" with flakeIntervalId := some 0 }
        halfDraws).activeFlakes.length ≤ 1) :=
  ⟨rfl, c3_restart_equiv witnessCfg
    { initState "" with flakeIntervalId := some 0 } halfDraws rfl⟩

/-- C9: with a configured maximum that is a non-positive number, the
max-flakes guard always fires (the tracked count is never below it), so
`createSnowflake` always returns null and changes nothing, and even right
after `startSnowflakes` the tracked set is empty. -/
theorem c9_nonpositive_max (cfg : Config) (s : SnowState) (d : Draws)
    (n : ℚ) (hm : cfg.maxFlakes = some n) (hn : n ≤ 0) :
    createSnowflake cfg s d = (none, s) ∧
    (startSnowflakes cfg s d).activeFlakes = [] := by
  have hall : ∀ t : SnowState, createSnowflake cfg t d = (none, t) := by
    intro t
    apply createSnowflake_of_maxReached
    unfold maxReached
    rw [hm]
    simp only [decide_eq_true_eq, ge_iff_le]
    calc n ≤ 0 := hn
      _ ≤ (t.activeFlakes.length : ℚ) := by positivity
  refine ⟨hall s, ?_⟩
  unfold startSnowflakes startCore
  rw [hall]
  set u := if s.flakeIntervalId.isSome then stopSnowflakes s else s with hu
  obtain ⟨r1, _, _, _, _, _, _, _, _, _⟩ := removeAllSnowflakes_spec u
  obtain ⟨_, _, _, _, a5, _, _, _, _, _, _⟩ :=
    addStyles_spec (removeAllSnowflakes u)
  obtain ⟨_, _, _, g4, _, _, _, _, _⟩ :=
    getContainer_frame cfg (addStyles (removeAllSnowflakes u))
  obtain ⟨_, _, _, _, o5, _, _, _, _⟩ :=
    overridePosition_frame cfg
      (getContainer cfg (addStyles (removeAllSnowflakes u)))
  show (overridePosition cfg _).activeFlakes = []
  rw [o5, g4, a5, r1]

/-- C9 witness: `maxFlakes = 0` (a concrete non-positive maximum). -/
theorem c9_nonpositive_max_witness :
    zeroMaxCfg.maxFlakes = some 0 ∧ (0 : ℚ) ≤ 0 ∧
    (createSnowflake zeroMaxCfg (initState "") halfDraws =
        (none, initState "") ∧
      (startSnowflakes zeroMaxCfg (initState "") halfDraws).activeFlakes = []) :=
  ⟨rfl, le_refl 0,
    c9_nonpositive_max zeroMaxCfg (initState "") halfDraws 0 rfl (le_refl 0)⟩

lemma random_mem (lo hi r : ℚ) (hle : lo ≤ hi) (h0 : 0 ≤ r) (h1 : r < 1) :
    lo ≤ random lo hi r ∧ random lo hi r ≤ hi := by
  unfold random
  constructor <;> nlinarith

lemma randomInt_pos_mem (r : ℚ) (h0 : 0 ≤ r) (h1 : r < 1) :
    1 ≤ randomInt 1 99 r ∧ randomInt 1 99 r ≤ 99 := by
  unfold randomInt random
  constructor
  · rw [Int.le_floor]
    push_cast
    nlinarith
  · have : (⌊r * (99 + 1 - 1) + 1⌋ : ℤ) < 100 := by
      rw [Int.floor_lt]
      push_cast
      nlinarith
    omega

/-- C5: the chaos multiplier is `clamp(chaos,0,100)/50`; with the drift
samples taken exactly as in the source (`random(-maxDeviation,
maxDeviation)` and `random(-maxDeviation*0.5, maxDeviation*0.5)` with
`maxDeviation = 100 * chaosMultiplier`): at chaos 0 both drifts are 0 for
every draw; for draws in `[0,1)` the drift magnitudes are bounded by
200/100 (chaos 100) and 100/50 (chaos 50), the bounds are attained (at
draw 0), and the attained chaos-100 magnitudes are exactly double the
chaos-50 ones. -/
theorem c5_chaos_scaling (r : ℚ) (h0 : 0 ≤ r) (h1 : r < 1) :
    chaosMultiplier 0 = 0 ∧ chaosMultiplier 50 = 1 ∧ chaosMultiplier 100 = 2 ∧
    (∀ q : ℚ,
      random (-(100 * chaosMultiplier 0)) (100 * chaosMultiplier 0) q = 0 ∧
      random (-(100 * chaosMultiplier 0) * (1 / 2))
        (100 * chaosMultiplier 0 * (1 / 2)) q = 0) ∧
    |random (-(100 * chaosMultiplier 100)) (100 * chaosMultiplier 100) r| ≤ 200 ∧
    |random (-(100 * chaosMultiplier 100) * (1 / 2))
      (100 * chaosMultiplier 100 * (1 / 2)) r| ≤ 100 ∧
    |random (-(100 * chaosMultiplier 50)) (100 * chaosMultiplier 50) r| ≤ 100 ∧
    |random (-(100 * chaosMultiplier 50) * (1 / 2))
      (100 * chaosMultiplier 50 * (1 / 2)) r| ≤ 50 ∧
    |random (-(100 * chaosMultiplier 100)) (100 * chaosMultiplier 100) 0| =
      2 * |random (-(100 * chaosMultiplier 50)) (100 * chaosMultiplier 50) 0| ∧
    |random (-(100 * chaosMultiplier 100)) (100 * chaosMultiplier 100) 0| = 200 ∧
    |random (-(100 * chaosMultiplier 100) * (1 / 2))
        (100 * chaosMultiplier 100 * (1 / 2)) 0| =
      2 * |random (-(100 * chaosMultiplier 50) * (1 / 2))
        (100 * chaosMultiplier 50 * (1 / 2)) 0| ∧
    |random (-(100 * chaosMultiplier 100) * (1 / 2))
      (100 * chaosMultiplier 100 * (1 / 2)) 0| = 100 := by
  have hm0 : chaosMultiplier 0 = 0 := by
    unfold chaosMultiplier; norm_num
  have hm50 : chaosMultiplier 50 = 1 := by
    unfold chaosMultiplier; norm_num
  have hm100 : chaosMultiplier 100 = 2 := by
    unfold chaosMultiplier; norm_num
  refine ⟨hm0, hm50, hm100, ?_, ?_, ?_, ?_, ?_, ?_, ?_, ?_, ?_⟩
  · intro q
    rw [hm0]
    unfold random
    norm_num
  · rw [hm100]; unfold random; rw [abs_le]; constructor <;> nlinarith
  · rw [hm100]; unfold random; rw [abs_le]; constructor <;> nlinarith
  · rw [hm50]; unfold random; rw [abs_le]; constructor <;> nlinarith
  · rw [hm50]; unfold random; rw [abs_le]; constructor <;> nlinarith
  · rw [hm100, hm50]; unfold random; norm_num [abs_neg, abs_of_nonneg]
  · rw [hm100]; unfold random; norm_num [abs_neg, abs_of_nonneg]
  · rw [hm100, hm50]; unfold random; norm_num [abs_neg, abs_of_nonneg]
  · rw [hm100]; unfold random; norm_num [abs_neg, abs_of_nonneg]

/-- C5 witness: the bounds instantiated at the draw `r = 1/2`. -/
theorem c5_chaos_scaling_witness :
    (0 : ℚ) ≤ 1 / 2 ∧ (1 / 2 : ℚ) < 1 ∧
    (chaosMultiplier 0 = 0 ∧ chaosMultiplier 50 = 1 ∧ chaosMultiplier 100 = 2 ∧
    (∀ q : ℚ,
      random (-(100 * chaosMultiplier 0)) (100 * chaosMultiplier 0) q = 0 ∧
      random (-(100 * chaosMultiplier 0) * (1 / 2))
        (100 * chaosMultiplier 0 * (1 / 2)) q = 0) ∧
    |random (-(100 * chaosMultiplier 100)) (100 * chaosMultiplier 100)
      (1 / 2)| ≤ 200 ∧
    |random (-(100 * chaosMultiplier 100) * (1 / 2))
      (100 * chaosMultiplier 100 * (1 / 2)) (1 / 2)| ≤ 100 ∧
    |random (-(100 * chaosMultiplier 50)) (100 * chaosMultiplier 50)
      (1 / 2)| ≤ 100 ∧
    |random (-(100 * chaosMultiplier 50) * (1 / 2))
      (100 * chaosMultiplier 50 * (1 / 2)) (1 / 2)| ≤ 50 ∧
    |random (-(100 * chaosMultiplier 100)) (100 * chaosMultiplier 100) 0| =
      2 * |random (-(100 * chaosMultiplier 50)) (100 * chaosMultiplier 50) 0| ∧
    |random (-(100 * chaosMultiplier 100)) (100 * chaosMultiplier 100) 0| = 200 ∧
    |random (-(100 * chaosMultiplier 100) * (1 / 2))
        (100 * chaosMultiplier 100 * (1 / 2)) 0| =
      2 * |random (-(100 * chaosMultiplier 50) * (1 / 2))
        (100 * chaosMultiplier 50 * (1 / 2)) 0| ∧
    |random (-(100 * chaosMultiplier 100) * (1 / 2))
      (100 * chaosMultiplier 100 * (1 / 2)) 0| = 100) :=
  ⟨by norm_num, by norm_num,
    c5_chaos_scaling (1 / 2) (by norm_num) (by norm_num)⟩

/-- On success the created flake carries exactly the sampled values. -/
lemma createSnowflake_success (cfg : Config) (s : SnowState) (d : Draws)
    (flake : Flake) (s' : SnowState)
    (h : createSnowflake cfg s d = (some flake, s')) :
    flake.fallingTime = random cfg.minSpeed cfg.maxSpeed d.rTime ∧
    flake.flakePos = randomInt 1 99 d.rPos ∧
    flake.flakeSize = jsRound (random cfg.minSize cfg.maxSize d.rSize) ∧
    0 < flake.flakeSize := by
  unfold createSnowflake at h
  split at h
  · simp at h
  · simp only at h
    split at h
    · simp at h
    · next hpos =>
      simp only [Prod.mk.injEq, Option.some.injEq] at h
      obtain ⟨rfl, rfl⟩ := h
      exact ⟨rfl, rfl, rfl, not_le.mp hpos⟩

/-- C6: with `minSpeed ≤ maxSpeed`, `minSize ≤ maxSize` and the three
relevant draws in `[0,1)`: every successfully created flake has its fall
duration in `[minSpeed, maxSpeed]`, an integer horizontal position in
`[1, 99]`, and a size equal to the rounding of a draw lying in
`[minSize, maxSize]`; and whenever that rounded size is ≤ 0 no element is
created. -/
theorem c6_sampling (cfg : Config) (s : SnowState) (d : Draws)
    (hsp : cfg.minSpeed ≤ cfg.maxSpeed) (hsz : cfg.minSize ≤ cfg.maxSize)
    (ht0 : 0 ≤ d.rTime) (ht1 : d.rTime < 1)
    (hp0 : 0 ≤ d.rPos) (hp1 : d.rPos < 1)
    (hs0 : 0 ≤ d.rSize) (hs1 : d.rSize < 1) :
    (∀ flake s', createSnowflake cfg s d = (some flake, s') →
      cfg.minSpeed ≤ flake.fallingTime ∧ flake.fallingTime ≤ cfg.maxSpeed ∧
      1 ≤ flake.flakePos ∧ flake.flakePos ≤ 99 ∧
      flake.flakeSize = jsRound (random cfg.minSize cfg.maxSize d.rSize)) ∧
    cfg.minSize ≤ random cfg.minSize cfg.maxSize d.rSize ∧
    random cfg.minSize cfg.maxSize d.rSize ≤ cfg.maxSize ∧
    (jsRound (random cfg.minSize cfg.maxSize d.rSize) ≤ 0 →
      (createSnowflake cfg s d).1 = none) := by
  obtain ⟨hszlo, hszhi⟩ := random_mem cfg.minSize cfg.maxSize d.rSize hsz hs0 hs1
  refine ⟨?_, hszlo, hszhi, ?_⟩
  · intro flake s' h
    obtain ⟨hft, hfp, hfs, -⟩ := createSnowflake_success cfg s d flake s' h
    obtain ⟨hlo, hhi⟩ :=
      random_mem cfg.minSpeed cfg.maxSpeed d.rTime hsp ht0 ht1
    obtain ⟨hplo, hphi⟩ := randomInt_pos_mem d.rPos hp0 hp1
    rw [hft, hfp]
    exact ⟨hlo, hhi, hplo, hphi, hfs⟩
  · intro hz
    unfold createSnowflake
    split
    · rfl
    · simp only
      split
      · rfl
      · next hpos => exact absurd hz hpos

/-- C6 witness: the default numeric configuration, all draws `1/2`:
the spawned flake lands in all the stated ranges. -/
theorem c6_sampling_witness :
    witnessCfg.minSpeed ≤ witnessCfg.maxSpeed ∧
    witnessCfg.minSize ≤ witnessCfg.maxSize ∧
    (0 : ℚ) ≤ halfDraws.rTime ∧ halfDraws.rTime < 1 ∧
    (0 : ℚ) ≤ halfDraws.rPos ∧ halfDraws.rPos < 1 ∧
    (0 : ℚ) ≤ halfDraws.rSize ∧ halfDraws.rSize < 1 ∧
    ((∀ flake s',
      createSnowflake witnessCfg (initState "") halfDraws = (some flake, s') →
      witnessCfg.minSpeed ≤ flake.fallingTime ∧
      flake.fallingTime ≤ witnessCfg.maxSpeed ∧
      1 ≤ flake.flakePos ∧ flake.flakePos ≤ 99 ∧
      flake.flakeSize =
        jsRound (random witnessCfg.minSize witnessCfg.maxSize halfDraws.rSize)) ∧
    witnessCfg.minSize ≤
      random witnessCfg.minSize witnessCfg.maxSize halfDraws.rSize ∧
    random witnessCfg.minSize witnessCfg.maxSize halfDraws.rSize ≤
      witnessCfg.maxSize ∧
    (jsRound (random witnessCfg.minSize witnessCfg.maxSize halfDraws.rSize) ≤ 0 →
      (createSnowflake witnessCfg (initState "") halfDraws).1 = none)) :=
  ⟨by norm_num [witnessCfg], by norm_num [witnessCfg],
    by norm_num [halfDraws], by norm_num [halfDraws],
    by norm_num [halfDraws], by norm_num [halfDraws],
    by norm_num [halfDraws], by norm_num [halfDraws],
    c6_sampling witnessCfg (initState "") halfDraws
      (by norm_num [witnessCfg]) (by norm_num [witnessCfg])
      (by norm_num [halfDraws]) (by norm_num [halfDraws])
      (by norm_num [halfDraws]) (by norm_num [halfDraws])
      (by norm_num [halfDraws]) (by norm_num [halfDraws])⟩

/-- C1 (amended: the maximum restricted to the spec's domain of whole
numbers): with `maxFlakes = n` a natural number, from any state tracking
at most `n` flakes, no sequence of spawn ticks pushes the tracked count
past `n`; and whenever the count has reached `n`, `createSnowflake`
returns null and changes nothing. -/
theorem c1_max_bound (cfg : Config) (n : ℕ) (hm : cfg.maxFlakes = some (n : ℚ))
    (s : SnowState) (hs : s.activeFlakes.length ≤ n) (ds : List Draws) :
    (spawnTicks cfg s ds).activeFlakes.length ≤ n ∧
    (∀ d, n ≤ s.activeFlakes.length → createSnowflake cfg s d = (none, s)) := by
  have hbound : ∀ (l : List Draws) (t : SnowState),
      t.activeFlakes.length ≤ n → (spawnTicks cfg t l).activeFlakes.length ≤ n := by
    intro l
    induction l with
    | nil => intro t ht; exact ht
    | cons d tl ih =>
      intro t ht
      exact ih _ (createSnowflake_length_le cfg t d n hm ht)
  refine ⟨hbound ds s hs, ?_⟩
  intro d hn
  apply createSnowflake_of_maxReached
  unfold maxReached
  rw [hm]
  simp only [decide_eq_true_eq, ge_iff_le]
  exact_mod_cast hn

/-- C1 witness: `maxFlakes = 2`, three spawn ticks from the fresh state. -/
theorem c1_max_bound_witness :
    twoMaxCfg.maxFlakes = some ((2 : ℕ) : ℚ) ∧
    (initState "").activeFlakes.length ≤ 2 ∧
    ((spawnTicks twoMaxCfg (initState "")
        [halfDraws, halfDraws, halfDraws]).activeFlakes.length ≤ 2 ∧
      (∀ d, 2 ≤ (initState "").activeFlakes.length →
        createSnowflake twoMaxCfg (initState "") d = (none, initState ""))) :=
  ⟨by norm_num [twoMaxCfg, witnessCfg], by norm_num [initState],
    c1_max_bound twoMaxCfg 2 (by norm_num [twoMaxCfg, witnessCfg])
      (initState "") (by norm_num [initState]) [halfDraws, halfDraws, halfDraws]⟩

/-- C1 counterexample: the claim quantifies over arbitrary non-null
numeric `maxFlakes`; with the fractional `maxFlakes = 0.5` a single spawn
tick makes the tracked set size 1, which exceeds 0.5. -/
theorem c1_max_bound_counterexample :
    halfMaxCfg.maxFlakes = some (1 / 2) ∧
    ((spawnTicks halfMaxCfg (initState "") [halfDraws]).activeFlakes.length : ℚ)
      > 1 / 2 := by
  refine ⟨rfl, ?_⟩
  have h : (spawnTicks halfMaxCfg (initState "") [halfDraws]).activeFlakes
      = [0] := by
    show (createSnowflake halfMaxCfg (initState "") halfDraws).2.activeFlakes
      = [0]
    norm_num [createSnowflake, maxReached, getContainer, halfMaxCfg,
      witnessCfg, initState, jsRound, random, halfDraws, listAdd,
      chaosMultiplier]
  rw [h]
  norm_num

/-- C8 (amended): when either spawn guard fires, `createSnowflake`
returns null with no element created: the max-flakes guard changes
nothing at all, and the size guard leaves the tracked set, the attached
elements and both timer handles unchanged — though, running after
container resolution, it can still fill the container cache (with its
one-time warning) on a first call. -/
theorem c8_guard_skip (cfg : Config) (s : SnowState) (d : Draws) :
    (maxReached cfg s = true → createSnowflake cfg s d = (none, s)) ∧
    (jsRound (random cfg.minSize cfg.maxSize d.rSize) ≤ 0 →
      (createSnowflake cfg s d).1 = none ∧
      (createSnowflake cfg s d).2.activeFlakes = s.activeFlakes ∧
      (createSnowflake cfg s d).2.domFlakes = s.domFlakes ∧
      (createSnowflake cfg s d).2.flakeIntervalId = s.flakeIntervalId ∧
      (createSnowflake cfg s d).2.cleanupIntervalId = s.cleanupIntervalId) := by
  obtain ⟨g1, g2, _, g4, g5, _, _, _, _⟩ := getContainer_frame cfg s
  refine ⟨createSnowflake_of_maxReached cfg s d, ?_⟩
  intro hz
  by_cases hmax : maxReached cfg s = true
  · rw [createSnowflake_of_maxReached cfg s d hmax]
    exact ⟨rfl, rfl, rfl, rfl, rfl⟩
  · rw [Bool.not_eq_true] at hmax
    unfold createSnowflake
    rw [hmax]
    simp only [Bool.false_eq_true, if_false]
    split
    · exact ⟨rfl, g4, g5, g1, g2⟩
    · next hpos => exact absurd hz hpos

/-- C8 counterexample to the unamended claim: on a first call with an
unresolvable selector and a size range rounding to 0, the size guard
fires (null returned) yet the state has changed — the container cache is
filled and the warning counter incremented. -/
theorem c8_guard_skip_counterexample :
    (createSnowflake degenerateCfg (initState "") halfDraws).1 = none ∧
    (createSnowflake degenerateCfg (initState "") halfDraws).2 ≠ initState "" ∧
    (createSnowflake degenerateCfg (initState "") halfDraws).2.warnCount = 1 ∧
    (initState "").warnCount = 0 := by
  have h : createSnowflake degenerateCfg (initState "") halfDraws =
      (none, { initState "" with
                 containerElement := some ContainerRef.body
                 warnCount := 1 }) := by
    norm_num [createSnowflake, maxReached, getContainer, degenerateCfg,
      witnessCfg, initState, jsRound, random, halfDraws, listAdd,
      chaosMultiplier]
  rw [h]
  refine ⟨rfl, ?_, rfl, rfl⟩
  simp [initState]

/-- C8 witness: the guard behaviour instantiated at the degenerate
configuration from a fresh state. -/
theorem c8_guard_skip_witness :
    (maxReached degenerateCfg (initState "") = true →
      createSnowflake degenerateCfg (initState "") halfDraws =
        (none, initState "")) ∧
    (jsRound (random degenerateCfg.minSize degenerateCfg.maxSize
        halfDraws.rSize) ≤ 0 →
      (createSnowflake degenerateCfg (initState "") halfDraws).1 = none ∧
      (createSnowflake degenerateCfg (initState "") halfDraws).2.activeFlakes =
        (initState "").activeFlakes ∧
      (createSnowflake degenerateCfg (initState "") halfDraws).2.domFlakes =
        (initState "").domFlakes ∧
      (createSnowflake degenerateCfg (initState "") halfDraws).2.flakeIntervalId =
        (initState "").flakeIntervalId ∧
      (createSnowflake degenerateCfg (initState "") halfDraws).2.cleanupIntervalId =
        (initState "").cleanupIntervalId) :=
  c8_guard_skip degenerateCfg (initState "") halfDraws

/-- C7: container resolution is memoized: a cache hit returns the cached
container unchanged (so the one-time warning cannot repeat per spawn), a
first call fills the cache with exactly the returned container (string →
one query with warned body fallback on a miss; element → used directly;
anything else → body), a second call after any first call changes
nothing, and `stopSnowflakes` does not reset the cache. -/
theorem c7_container_memoized (cfg : Config) (s : SnowState) :
    (getContainer cfg s).2.containerElement = some (getContainer cfg s).1 ∧
    (∀ c, s.containerElement = some c → getContainer cfg s = (c, s)) ∧
    getContainer cfg (getContainer cfg s).2 =
      ((getContainer cfg s).1, (getContainer cfg s).2) ∧
    (∀ sel, cfg.containerOpt = ContainerOption.selector sel →
      s.containerElement = none →
      (cfg.query sel = none →
        getContainer cfg s =
          (ContainerRef.body,
            { s with containerElement := some ContainerRef.body
                     warnCount := s.warnCount + 1 })) ∧
      (∀ c, cfg.query sel = some c →
        getContainer cfg s = (c, { s with containerElement := some c }))) ∧
    (∀ e, cfg.containerOpt = ContainerOption.element e →
      s.containerElement = none →
      getContainer cfg s = (e, { s with containerElement := some e })) ∧
    (cfg.containerOpt = ContainerOption.other → s.containerElement = none →
      getContainer cfg s =
        (ContainerRef.body,
          { s with containerElement := some ContainerRef.body })) ∧
    (stopSnowflakes s).containerElement = s.containerElement := by
  refine ⟨getContainer_cache cfg s, getContainer_cached cfg s, ?_, ?_, ?_, ?_,
    (stopSnowflakes_spec s).2.2.2.2.1⟩
  · exact getContainer_cached cfg (getContainer cfg s).2 (getContainer cfg s).1
      (getContainer_cache cfg s)
  · intro sel hsel hnone
    constructor
    · intro hq
      unfold getContainer
      rw [hnone, hsel]
      simp [hq]
    · intro c hq
      unfold getContainer
      rw [hnone, hsel]
      simp [hq]
  · intro e he hnone
    unfold getContainer
    rw [hnone, he]
  · intro ho hnone
    unfold getContainer
    rw [hnone, ho]

/-- C7 witness: the missing-selector configuration resolved from a fresh
state. -/
theorem c7_container_memoized_witness :
    (getContainer degenerateCfg (initState "")).2.containerElement =
      some (getContainer degenerateCfg (initState "")).1 ∧
    (∀ c, (initState "").containerElement = some c →
      getContainer degenerateCfg (initState "") = (c, initState "")) ∧
    getContainer degenerateCfg (getContainer degenerateCfg (initState "")).2 =
      ((getContainer degenerateCfg (initState "")).1,
        (getContainer degenerateCfg (initState "")).2) ∧
    (∀ sel, degenerateCfg.containerOpt = ContainerOption.selector sel →
      (initState "").containerElement = none →
      (degenerateCfg.query sel = none →
        getContainer degenerateCfg (initState "") =
          (ContainerRef.body,
            { initState "" with containerElement := some ContainerRef.body
                                warnCount := (initState "").warnCount + 1 })) ∧
      (∀ c, degenerateCfg.query sel = some c →
        getContainer degenerateCfg (initState "") =
          (c, { initState "" with containerElement := some c }))) ∧
    (∀ e, degenerateCfg.containerOpt = ContainerOption.element e →
      (initState "").containerElement = none →
      getContainer degenerateCfg (initState "") =
        (e, { initState "" with containerElement := some e })) ∧
    (degenerateCfg.containerOpt = ContainerOption.other →
      (initState "").containerElement = none →
      getContainer degenerateCfg (initState "") =
        (ContainerRef.body,
          { initState "" with containerElement := some ContainerRef.body })) ∧
    (stopSnowflakes (initState "")).containerElement =
      (initState "").containerElement :=
  c7_container_memoized degenerateCfg (initState "")

/-- A flake that is tracked but detached survives any sweep-fold, still
tracked and still detached. -/
lemma sweepFold_detached (l : List ℕ) (s : SnowState) (f : ℕ)
    (hd : f ∉ s.domFlakes) (ha : f ∈ s.activeFlakes) :
    f ∈ (sweepFold l s).activeFlakes ∧ f ∉ (sweepFold l s).domFlakes := by
  induction l generalizing s with
  | nil => exact ⟨ha, hd⟩
  | cons a t ih =>
    refine ih (removeSnowflake a s) ?_ ?_
    · unfold removeSnowflake
      split
      · simp only [listDelete, List.mem_filter]
        intro hmem
        exact hd hmem.1
      · exact hd
    · unfold removeSnowflake
      split
      · next hadom =>
        simp only [listDelete, List.mem_filter, decide_eq_true_eq]
        exact ⟨ha, fun hfa => hd (hfa ▸ hadom)⟩
      · exact ha

/-- C10: `removeSnowflake` acts only on attached flakes: on a detached
flake it is the identity; a tracked detached flake survives any
`removeSnowflake` call and any `cleanupSnowflakes` sweep, and only
`removeAllSnowflakes` unconditionally empties the tracked set. -/
theorem c10_detached_stays (cfg : Config) (geo : Geometry) (s : SnowState)
    (f g : ℕ) (hd : f ∉ s.domFlakes) :
    removeSnowflake f s = s ∧
    (f ∈ s.activeFlakes → f ∈ (removeSnowflake g s).activeFlakes) ∧
    (f ∈ s.activeFlakes → f ∈ (cleanupSnowflakes cfg geo s).activeFlakes) ∧
    (removeAllSnowflakes s).activeFlakes = [] := by
  obtain ⟨_, _, _, g4, g5, _, _, _, _⟩ := getContainer_frame cfg s
  refine ⟨?_, ?_, ?_, (removeAllSnowflakes_spec s).1⟩
  · unfold removeSnowflake
    rw [if_neg hd]
  · intro ha
    unfold removeSnowflake
    split
    · next hgdom =>
      simp only [listDelete, List.mem_filter, decide_eq_true_eq]
      exact ⟨ha, fun hfg => hd (hfg ▸ hgdom)⟩
    · exact ha
  · intro ha
    unfold cleanupSnowflakes
    split
    · exact ha
    · refine (sweepFold_detached _ _ f ?_ ?_).1
      · rw [g5]; exact hd
      · rw [g4]; exact ha

/-- Geometry that reports every flake far below the container, so the
sweep tries to remove everything. -/
def witnessGeo : Geometry :=
  { innerHeight := 800, offsetHeight := fun _ => 600, flakeTop := fun _ => 10000 }

/-- C10 witness: a tracked but detached flake survives a direct removal
attempt and a sweep that selects it. -/
theorem c10_detached_stays_witness :
    (5 : ℕ) ∉ ({ initState "" with activeFlakes := [5] } : SnowState).domFlakes ∧
    (removeSnowflake 5 { initState "" with activeFlakes := [5] } =
      { initState "" with activeFlakes := [5] } ∧
    ((5 : ℕ) ∈ ({ initState "" with activeFlakes := [5] } : SnowState).activeFlakes →
      5 ∈ (removeSnowflake 5 { initState "" with activeFlakes := [5] }).activeFlakes) ∧
    ((5 : ℕ) ∈ ({ initState "" with activeFlakes := [5] } : SnowState).activeFlakes →
      5 ∈ (cleanupSnowflakes witnessCfg witnessGeo
        { initState "" with activeFlakes := [5] }).activeFlakes) ∧
    (removeAllSnowflakes
      { initState "" with activeFlakes := [5] }).activeFlakes = []) :=
  ⟨by simp [initState],
    c10_detached_stays witnessCfg witnessGeo
      { initState "" with activeFlakes := [5] } 5 5 (by simp [initState])⟩

/-- `createSnowflake` never changes an already-filled container cache. -/
lemma createSnowflake_containerElement (cfg : Config) (s : SnowState)
    (d : Draws) (c : ContainerRef) (h : s.containerElement = some c) :
    (createSnowflake cfg s d).2.containerElement = some c := by
  unfold createSnowflake
  split
  · exact h
  · simp only
    rw [getContainer_cached cfg s c h]
    split
    · exact h
    · exact h

/-- What `stopSnowflakes` writes back to the inline position when the
cached container is a non-body element carrying a recorded value. -/
lemma stopSnowflakes_inline (s : SnowState) (c : ContainerRef) (orig : String)
    (hc : s.containerElement = some c) (hb : c ≠ ContainerRef.body)
    (ha : s.containerAttr = some orig) :
    (stopSnowflakes s).containerInline = (if orig = "static" then "" else orig) := by
  obtain ⟨_, _, _, k4, _, _, _, _, _, _, k11⟩ := clearTimers_spec s
  obtain ⟨_, _, _, _, a5, _, _, _, _, a10⟩ :=
    removeAllSnowflakes_spec (clearTimers s)
  obtain ⟨_, _, _, t4, _, _, _, _, _, _, t11⟩ :=
    removeStyles_spec (removeAllSnowflakes (clearTimers s))
  have h4ce :
      (removeStyles (removeAllSnowflakes (clearTimers s))).containerElement =
        some c := by rw [t4, a5, k4, hc]
  have h4attr :
      (removeStyles (removeAllSnowflakes (clearTimers s))).containerAttr =
        some orig := by rw [t11, a10, k11, ha]
  exact (restorePosition_restores _ c h4ce hb).2.1 orig h4attr

/-- When `startCore` runs on a state whose container resolves to a
non-body element with computed position `static` it caches that
container, and records the prior inline value (empty recorded as the
`"static"` sentinel) on the attribute. -/
lemma startCore_position (cfg : Config) (s : SnowState) (d : Draws)
    (c : ContainerRef) (hc : resolveFst cfg s.containerElement = c)
    (hb : c ≠ ContainerRef.body)
    (hstatic : computedPosition cfg s = "static") :
    (startCore cfg s d).containerElement = some c ∧
    (startCore cfg s d).containerAttr =
      some (if s.containerInline = "" then "static" else s.containerInline) := by
  obtain ⟨_, _, _, _, a5, _, _, _, a9, a10⟩ := removeAllSnowflakes_spec s
  obtain ⟨_, _, _, b4, _, _, _, _, _, b10, _⟩ :=
    addStyles_spec (removeAllSnowflakes s)
  obtain ⟨_, _, _, _, _, _, _, g8, _⟩ :=
    getContainer_frame cfg (addStyles (removeAllSnowflakes s))
  have hu_ce :
      (addStyles (removeAllSnowflakes s)).containerElement =
        s.containerElement := b4.trans a5
  have hu_inline :
      (addStyles (removeAllSnowflakes s)).containerInline =
        s.containerInline := b10.trans a9
  have hp_fst :
      (getContainer cfg (addStyles (removeAllSnowflakes s))).1 = c := by
    rw [getContainer_fst, hu_ce, hc]
  have hp_ce :
      (getContainer cfg (addStyles (removeAllSnowflakes s))).2.containerElement =
        some c := by rw [getContainer_cache, hp_fst]
  have hp_inline :
      (getContainer cfg (addStyles (removeAllSnowflakes s))).2.containerInline =
        s.containerInline := g8.trans hu_inline
  have hcond :
      (getContainer cfg (addStyles (removeAllSnowflakes s))).1 ≠
        ContainerRef.body ∧
      computedPosition cfg
        (getContainer cfg (addStyles (removeAllSnowflakes s))).2 = "static" := by
    refine ⟨by rw [hp_fst]; exact hb, ?_⟩
    unfold computedPosition at hstatic ⊢
    rw [hp_inline]
    exact hstatic
  have hov :
      overridePosition cfg (getContainer cfg (addStyles (removeAllSnowflakes s))) =
        { (getContainer cfg (addStyles (removeAllSnowflakes s))).2 with
            containerInline := "relative"
            containerAttr :=
              some (if s.containerInline = "" then "static"
                    else s.containerInline) } := by
    unfold overridePosition
    rw [if_pos hcond, hp_inline]
  have hv_ce :
      (overridePosition cfg
        (getContainer cfg (addStyles (removeAllSnowflakes s)))).containerElement =
        some c := by rw [hov]; exact hp_ce
  obtain ⟨_, _, _, _, _, cs6⟩ :=
    createSnowflake_frame cfg
      (overridePosition cfg
        (getContainer cfg (addStyles (removeAllSnowflakes s)))) d
  constructor
  · show (createSnowflake cfg _ d).2.containerElement = some c
    exact createSnowflake_containerElement cfg _ d c hv_ce
  · show (createSnowflake cfg _ d).2.containerAttr = _
    rw [cs6, hov]

/-- The exact inline value left behind by a start/stop cycle on a
non-body static-positioned container: the recorded value run through the
restoration (`"static"` sentinel → `""`). -/
lemma c4_core (cfg : Config) (s : SnowState) (d : Draws) (c : ContainerRef)
    (hrun : s.flakeIntervalId = none)
    (hc : resolveFst cfg s.containerElement = c)
    (hb : c ≠ ContainerRef.body)
    (hstatic : computedPosition cfg s = "static") :
    (stopSnowflakes (startSnowflakes cfg s d)).containerInline =
      (if (if s.containerInline = "" then "static" else s.containerInline) =
          "static"
       then ""
       else (if s.containerInline = "" then "static" else s.containerInline)) := by
  have hstart : startSnowflakes cfg s d = startCore cfg s d := by
    unfold startSnowflakes
    rw [hrun]
    simp
  obtain ⟨hce, hattr⟩ := startCore_position cfg s d c hc hb hstatic
  rw [hstart]
  exact stopSnowflakes_inline (startCore cfg s d) c _ hce hb hattr

/-- C4 (amended): starting on a non-default container whose computed
position is `static` and then stopping restores the container's exact
pre-start inline position for every pre-start inline value **except the
literal `"static"`** (in particular an absent inline value round-trips to
the empty string); an explicit inline `"static"`, which the recording
sentinel cannot distinguish from "no inline value", comes back as the
empty string instead. -/
theorem c4_position_roundtrip (cfg : Config) (s : SnowState) (d : Draws)
    (c : ContainerRef)
    (hrun : s.flakeIntervalId = none)
    (hc : resolveFst cfg s.containerElement = c)
    (hb : c ≠ ContainerRef.body)
    (hstatic : computedPosition cfg s = "static")
    (hns : s.containerInline ≠ "static") :
    (stopSnowflakes (startSnowflakes cfg s d)).containerInline =
      s.containerInline := by
  rw [c4_core cfg s d c hrun hc hb hstatic]
  by_cases he : s.containerInline = ""
  · rw [he]
    simp
  · rw [if_neg he, if_neg hns]

/-- C4 witness: a container with no inline position (computed `static`
from the stylesheet) round-trips to the empty inline value. -/
theorem c4_position_roundtrip_witness :
    (initState "").flakeIntervalId = none ∧
    resolveFst elemCfg (initState "").containerElement = ContainerRef.el 7 ∧
    ContainerRef.el 7 ≠ ContainerRef.body ∧
    computedPosition elemCfg (initState "") = "static" ∧
    (initState "").containerInline ≠ "static" ∧
    (stopSnowflakes (startSnowflakes elemCfg (initState "") halfDraws)).containerInline
      = (initState "").containerInline :=
  ⟨rfl, rfl, by decide, by decide, by decide,
    c4_position_roundtrip elemCfg (initState "") halfDraws (ContainerRef.el 7)
      rfl rfl (by decide) (by decide) (by decide)⟩

/-- C4 counterexample to the unamended claim: the pre-start inline value
`"static"` (whose computed position is `static`, so it is in the claim's
scope) does not round-trip: it comes back as the empty string. -/
theorem c4_position_roundtrip_counterexample :
    computedPosition elemCfg (initState "static") = "static" ∧
    (initState "static").containerInline = "static" ∧
    (stopSnowflakes
        (startSnowflakes elemCfg (initState "static") halfDraws)).containerInline
      = "" ∧
    ("" : String) ≠ "static" := by
  refine ⟨by decide, rfl, ?_, by decide⟩
  rw [c4_core elemCfg (initState "static") halfDraws (ContainerRef.el 7)
    rfl rfl (by decide) (by decide)]
  decide

end VueSnowfall
